import Mathlib

/-!
Verification of the multiplayer game subsystem of `app.py` (SociaFam):
the `game_invitations` / `multiplayer_games` / `game_moves` tables and the
handlers `invite_game`, `accept_invite`, `decline_invite`,
`handle_make_move` (socket event `make_move`) and
`handle_request_game_state` (socket event `request_game_state`).

The embedding models each table row as a structure, the database as lists
of rows, and each handler as a pure function from the database and the
request data to the new database plus the list of Socket.IO `emit` calls
it performs (event name, payload, target room or sid).  Timestamps are
abstract `Nat` ticks passed in as `now`; the `uuid.uuid4()` fresh token
and the `random.random() < 0.5` coin are explicit parameters; a possible
`sqlite3.Error` during the `make_move` write is modelled by a
`storage_ok : Bool` flag selecting the `except` branch.
-/

namespace SociaFam

/-- A row of `game_invitations` (schema at app.py:186-196). -/
structure Invitation where
  id : Nat
  sender_id : Nat
  recipient_id : Nat
  game_name : String
  status : String
  timestamp : Nat
  game_uuid : String
  deriving DecidableEq, Repr

/-- The board blob: `current_board_state` is a JSON 8x8 array of
one-character piece strings or `null` (`INITIAL_BOARD` at app.py:2433). -/
abbrev Board := List (List (Option String))

/-- The `castling_rights` blob: `{wK, wQ, bK, bQ}` (app.py:2444). -/
structure CastlingRights where
  wK : Bool
  wQ : Bool
  bK : Bool
  bQ : Bool
  deriving DecidableEq, Repr

/-- A row of `multiplayer_games` (schema at app.py:199-217).
`en_passant_target` and `last_move` are kept as opaque serialized
descriptors; `game_over` is the 0/1 integer column as a `Bool`. -/
structure GameSession where
  game_uuid : String
  game_name : String
  player_white_id : Nat
  player_black_id : Nat
  current_board_state : Board
  current_turn : String
  white_captures : Int
  black_captures : Int
  castling_rights : CastlingRights
  en_passant_target : Option String
  last_move : Option String
  game_over : Bool
  winner_id : Option Nat
  created_at : Nat
  last_updated : Nat
  deriving DecidableEq, Repr

/-- A row of `game_moves` (schema at app.py:220-229). -/
structure MoveRow where
  game_uuid : String
  move_number : Nat
  player_id : Nat
  move_data : String
  timestamp : Nat
  deriving DecidableEq, Repr

/-- The persistent store: the three game tables. -/
structure DB where
  invitations : List Invitation
  games : List GameSession
  moves : List MoveRow
  deriving DecidableEq, Repr

/-- The client-supplied `new_game_state` dict of a `make_move` event
(fields read at app.py:2561-2576). -/
structure ClientState where
  current_board_state : Board
  current_turn : String
  white_captures : Int
  black_captures : Int
  castling_rights : CastlingRights
  en_passant_target : Option String
  last_move : Option String
  game_over : Bool
  winner_id : Option Nat
  deriving DecidableEq, Repr

/-- The `data` dict of a `make_move` socket event (app.py:2534-2537). -/
structure MakeMovePayload where
  game_uuid : String
  player_id : Nat
  move_data : String
  new_game_state : ClientState
  deriving DecidableEq, Repr

/-- Target of a Socket.IO `emit`: either a whole room (every subscriber
of that room receives it) or one connection sid. -/
inductive Target where
  | room (token : String)
  | sid (s : String)
  deriving DecidableEq, Repr

/-- Payload of an emitted event: an error message dict, the echoed
client state (`game_state_update` after a move, app.py:2590-2600), or a
full `multiplayer_games` row (`game_state_update` on a state request,
app.py:2627). -/
inductive EmitPayload where
  | errMsg (m : String)
  | stateUpdate (v : ClientState)
  | fullRow (g : GameSession)
  deriving DecidableEq, Repr

/-- One Socket.IO `emit` call. -/
structure Emit where
  event : String
  payload : EmitPayload
  target : Target
  deriving DecidableEq, Repr

/-- Room membership of the relay: pairs (room token, connection sid). -/
abbrev Rooms := List (String × String)

/-- Whether one emit is delivered to connection `s`: a sid-targeted emit
reaches exactly that sid, a room-targeted emit reaches every sid joined
to the room. -/
def deliveredTo (e : Emit) (rooms : Rooms) (s : String) : Bool :=
  match e.target with
  | .sid t => t == s
  | .room r => rooms.contains (r, s)

/-- `SELECT * FROM multiplayer_games WHERE game_uuid = ?` + `fetchone()`
(app.py:2541, 2613). -/
def getGame (db : DB) (u : String) : Option GameSession :=
  db.games.find? (fun g => g.game_uuid == u)

/-- `SELECT COUNT(*) FROM game_moves WHERE game_uuid = ?` (app.py:2578). -/
def moveCount (moves : List MoveRow) (u : String) : Nat :=
  (moves.filter (fun m => m.game_uuid == u)).length

/-- Python truthiness applied to an optional serialized blob:
`json.dumps(v) if v else None` (app.py:2570-2571) stores NULL for a
falsy value, which for an optional string means `None` or `""`. -/
def truthy (v : Option String) : Option String :=
  match v with
  | none => none
  | some s => if s == "" then none else some s

/-- The `UPDATE multiplayer_games SET ... WHERE game_uuid = ?` of
`handle_make_move` (app.py:2560-2576): every row with the token gets the
client-supplied state verbatim and a fresh `last_updated`. -/
def updateGame (games : List GameSession) (u : String) (ns : ClientState)
    (now : Nat) : List GameSession :=
  games.map (fun g =>
    if g.game_uuid == u then
      { g with
        current_board_state := ns.current_board_state
        current_turn := ns.current_turn
        white_captures := ns.white_captures
        black_captures := ns.black_captures
        castling_rights := ns.castling_rights
        en_passant_target := truthy ns.en_passant_target
        last_move := truthy ns.last_move
        game_over := ns.game_over
        winner_id := ns.winner_id
        last_updated := now }
    else g)

/-- The turn-ownership rejection test of `handle_make_move`
(app.py:2549-2556): rejected iff the stored marker is `'w'` and the
mover is not the white player, or the marker is `'b'` and the mover is
not the black player.  For any other stored marker value the test
passes for every mover. -/
def turnRejected (g : GameSession) (player : Nat) : Bool :=
  (g.current_turn == "w" && !(player == g.player_white_id))
    || (g.current_turn == "b" && !(player == g.player_black_id))

/-- The `make_move` socket handler `handle_make_move` (app.py:2532-2607).
There is no check of the `game_over` column.  Every `emit`, error or
success, goes to `room=game_uuid`.  `storage_ok = false` selects the
`except sqlite3.Error` branch: nothing is committed and a
`game_error` is emitted to the room. -/
def handle_make_move (db : DB) (data : MakeMovePayload) (now : Nat)
    (storage_ok : Bool) : DB × List Emit :=
  match getGame db data.game_uuid with
  | none =>
      (db, [⟨"game_error", .errMsg "Game not found.", .room data.game_uuid⟩])
  | some game_row =>
      if turnRejected game_row data.player_id then
        (db, [⟨"game_error", .errMsg "It is not your turn.",
               .room data.game_uuid⟩])
      else if !storage_ok then
        (db, [⟨"game_error", .errMsg "Database error",
               .room data.game_uuid⟩])
      else
        let games := updateGame db.games data.game_uuid data.new_game_state now
        let move_number := moveCount db.moves data.game_uuid / 2 + 1
        let moves := db.moves ++
          [⟨data.game_uuid, move_number, data.player_id, data.move_data, now⟩]
        ({ db with games := games, moves := moves },
         [⟨"game_state_update", .stateUpdate data.new_game_state,
           .room data.game_uuid⟩])

/-- The `request_game_state` socket handler `handle_request_game_state`
(app.py:2609-2630): reads the row and emits only to `room=request.sid`,
the requesting connection; it performs no write. -/
def handle_request_game_state (db : DB) (game_uuid : String) (sid : String) :
    DB × List Emit :=
  match getGame db game_uuid with
  | some g => (db, [⟨"game_state_update", .fullRow g, .sid sid⟩])
  | none => (db, [⟨"game_error", .errMsg "Game state not found.", .sid sid⟩])

/-- Result of `invite_game`, abstracting the flash category + redirect. -/
inductive InviteResult where
  | recipientNotFound
  | selfInviteError
  | duplicatePendingError
  | success (game_uuid : String)
  deriving DecidableEq, Repr

/-- The WHERE clause of the duplicate-invitation query (app.py:2386-2392)
as SQLite parses it: `AND` binds tighter than `OR`, so the
`game_name` and `status = 'pending'` conditions attach only to the
second (recipient-to-sender) disjunct; the sender-to-recipient disjunct
matches regardless of game kind and status. -/
def existing_invite_match (inv : Invitation) (sender recipient : Nat)
    (game_name : String) : Bool :=
  (inv.sender_id == sender && inv.recipient_id == recipient)
    || (inv.sender_id == recipient && inv.recipient_id == sender
        && inv.game_name == game_name && inv.status == "pending")

/-- The next AUTOINCREMENT id for `game_invitations`. -/
def nextInvitationId (db : DB) : Nat :=
  (db.invitations.map (fun inv => inv.id)).foldr max 0 + 1

/-- The `/invite_game/<game_name>/<recipient_id>` handler `invite_game`
(app.py:2373-2409).  `users` models the `users` table ids for the
recipient-exists check; `fresh_uuid` is the `uuid.uuid4()` token. -/
def invite_game (users : List Nat) (db : DB) (sender recipient_id : Nat)
    (game_name : String) (fresh_uuid : String) (now : Nat) :
    DB × InviteResult :=
  if !users.contains recipient_id then
    (db, .recipientNotFound)
  else if sender == recipient_id then
    (db, .selfInviteError)
  else if db.invitations.any
      (fun inv => existing_invite_match inv sender recipient_id game_name) then
    (db, .duplicatePendingError)
  else
    ({ db with invitations := db.invitations ++
        [⟨nextInvitationId db, sender, recipient_id, game_name, "pending",
          now, fresh_uuid⟩] },
     .success fresh_uuid)

/-- The spec-side duplicate condition, for comparison with
`existing_invite_match`: a `pending` invitation for the same unordered
pair and the same game kind. -/
def specPendingDuplicate (db : DB) (a b : Nat) (k : String) : Bool :=
  db.invitations.any (fun inv =>
    ((inv.sender_id == a && inv.recipient_id == b)
      || (inv.sender_id == b && inv.recipient_id == a))
    && inv.game_name == k && inv.status == "pending")

/-- `SELECT * FROM game_invitations WHERE game_uuid = ? AND
recipient_id = ? AND status = "pending"` (app.py:2416-2419, 2466-2469). -/
def findPendingInvite (db : DB) (game_uuid : String) (actor : Nat) :
    Option Invitation :=
  db.invitations.find? (fun inv =>
    inv.game_uuid == game_uuid && inv.recipient_id == actor
      && inv.status == "pending")

/-- `UPDATE game_invitations SET status = ? WHERE id = ?`
(app.py:2425, 2474). -/
def setInviteStatus (invs : List Invitation) (id : Nat) (st : String) :
    List Invitation :=
  invs.map (fun inv => if inv.id == id then { inv with status := st } else inv)

/-- The chess starting board constant `INITIAL_BOARD` (app.py:2433-2442). -/
def INITIAL_BOARD : Board :=
  [[some "r", some "n", some "b", some "q", some "k", some "b", some "n", some "r"],
   [some "p", some "p", some "p", some "p", some "p", some "p", some "p", some "p"],
   [none, none, none, none, none, none, none, none],
   [none, none, none, none, none, none, none, none],
   [none, none, none, none, none, none, none, none],
   [none, none, none, none, none, none, none, none],
   [some "P", some "P", some "P", some "P", some "P", some "P", some "P", some "P"],
   [some "R", some "N", some "B", some "Q", some "K", some "B", some "N", some "R"]]

/-- `initial_castling_rights` (app.py:2444): all four rights granted. -/
def initial_castling_rights : CastlingRights := ⟨true, true, true, true⟩

/-- Result of `accept_invite`. -/
inductive AcceptResult where
  | notFound
  | acceptedWithGame (g : GameSession)
  | acceptedNoGame
  deriving DecidableEq, Repr

/-- The `/accept_invite/<game_uuid>` handler `accept_invite`
(app.py:2412-2460).  `swap` models `random.random() < 0.5`: when true
the white/black assignment of (sender, recipient) is swapped
(app.py:2427-2431).  For a chess invitation one `multiplayer_games` row
is inserted with the canonical initial state (app.py:2446-2453). -/
def accept_invite (db : DB) (game_uuid : String) (actor : Nat) (swap : Bool)
    (now : Nat) : DB × AcceptResult :=
  match findPendingInvite db game_uuid actor with
  | none => (db, .notFound)
  | some invite =>
      let invs := setInviteStatus db.invitations invite.id "accepted"
      if invite.game_name == "chess" then
        let player_white_id :=
          if swap then invite.recipient_id else invite.sender_id
        let player_black_id :=
          if swap then invite.sender_id else invite.recipient_id
        let g : GameSession :=
          ⟨game_uuid, invite.game_name, player_white_id, player_black_id,
           INITIAL_BOARD, "w", 0, 0, initial_castling_rights,
           none, none, false, none, now, now⟩
        ({ db with invitations := invs, games := db.games ++ [g] },
         .acceptedWithGame g)
      else
        ({ db with invitations := invs }, .acceptedNoGame)

/-- Result of `decline_invite`. -/
inductive DeclineResult where
  | notFound
  | declined
  deriving DecidableEq, Repr

/-- The `/decline_invite/<game_uuid>` handler `decline_invite`
(app.py:2463-2478): same lookup as accept, flips status to `declined`,
creates no session. -/
def decline_invite (db : DB) (game_uuid : String) (actor : Nat) :
    DB × DeclineResult :=
  match findPendingInvite db game_uuid actor with
  | none => (db, .notFound)
  | some invite =>
      ({ db with invitations := setInviteStatus db.invitations invite.id "declined" },
       .declined)

/-! ### Concrete fixtures used by witnesses and counterexamples -/

/-- A pending chess invitation from user 1 to user 2 with token `g1`. -/
def pendingChessInvite : Invitation := ⟨1, 1, 2, "chess", "pending", 0, "g1"⟩

/-- A store holding only `pendingChessInvite`. -/
def db0 : DB := ⟨[pendingChessInvite], [], []⟩

/-- The store after user 2 accepts `pendingChessInvite` with the coin
landing on `false` (no swap: white = sender 1, black = recipient 2). -/
def afterAccept : DB := (accept_invite db0 "g1" 2 false 0).1

/-- A client state whose whose-turn marker is `"w"` again (a client that
does not hand the turn over). -/
def stayWhiteState : ClientState :=
  ⟨INITIAL_BOARD, "w", 0, 0, initial_castling_rights, none, none, false, none⟩

/-- A client state that hands the turn to black, `"b"`. -/
def toBlackState : ClientState :=
  ⟨INITIAL_BOARD, "b", 0, 0, initial_castling_rights, none, none, false, none⟩

/-- An in-progress session `g1`: white 1, black 2, white to move. -/
def gameW : GameSession :=
  ⟨"g1", "chess", 1, 2, INITIAL_BOARD, "w", 0, 0, initial_castling_rights,
   none, none, false, none, 0, 0⟩

/-- A store holding only `gameW`. -/
def dbW : DB := ⟨[], [gameW], []⟩

/-- The empty store. -/
def dbEmpty : DB := ⟨[], [], []⟩

/-! ### Helper lemmas -/

/-- After `setInviteStatus invs id st`, every row with that id has the
new status. -/
theorem setInviteStatus_mem (invs : List Invitation) (id : Nat) (st : String) :
    ∀ inv ∈ setInviteStatus invs id st, inv.id = id → inv.status = st := by
  intro inv hmem hid
  simp only [setInviteStatus, List.mem_map] at hmem
  obtain ⟨a, _, hEq⟩ := hmem
  by_cases h : a.id = id
  · simp only [h, beq_self_eq_true, if_true] at hEq
    rw [← hEq]
  · simp only [beq_eq_false_iff_ne.mpr h, Bool.false_eq_true, if_false] at hEq
    rw [← hEq] at hid
    exact absurd hid h

/-- After `updateGame games u ns now`, every row with token `u` carries
the client-supplied whose-turn marker. -/
theorem updateGame_turn (games : List GameSession) (u : String)
    (ns : ClientState) (now : Nat) :
    ∀ g ∈ updateGame games u ns now, g.game_uuid = u →
      g.current_turn = ns.current_turn := by
  intro g hmem hid
  simp only [updateGame, List.mem_map] at hmem
  obtain ⟨a, _, hEq⟩ := hmem
  by_cases h : a.game_uuid = u
  · simp only [h, beq_self_eq_true, if_true] at hEq
    rw [← hEq]
  · simp only [beq_eq_false_iff_ne.mpr h, Bool.false_eq_true, if_false] at hEq
    rw [← hEq] at hid
    exact absurd hid h

/-! ### Claim theorems -/

/-- C3: for an existing non-terminal session, a `make_move` from an
identity that does not occupy the role matching the stored whose-turn
marker is rejected with the not-your-turn error and the store is
returned unchanged: the session row is not updated and no move row is
appended. -/
theorem make_move_not_your_turn (db : DB) (data : MakeMovePayload) (now : Nat)
    (storage_ok : Bool) (g : GameSession)
    (hg : getGame db data.game_uuid = some g)
    (_hnt : g.game_over = false)
    (hmis : (g.current_turn = "w" ∧ data.player_id ≠ g.player_white_id)
          ∨ (g.current_turn = "b" ∧ data.player_id ≠ g.player_black_id)) :
    handle_make_move db data now storage_ok =
      (db, [⟨"game_error", .errMsg "It is not your turn.",
             .room data.game_uuid⟩]) := by
  have hrej : turnRejected g data.player_id = true := by
    rcases hmis with ⟨ht, hp⟩ | ⟨ht, hp⟩ <;> simp [turnRejected, ht, hp]
  simp [handle_make_move, hg, hrej]

/-- Witness for `make_move_not_your_turn`: black (user 2) tries to move
in `gameW` while the marker is `"w"`. -/
theorem make_move_not_your_turn_witness :
    handle_make_move dbW ⟨"g1", 2, "e7e5", toBlackState⟩ 5 true =
      (dbW, [⟨"game_error", .errMsg "It is not your turn.", .room "g1"⟩]) :=
  make_move_not_your_turn dbW ⟨"g1", 2, "e7e5", toBlackState⟩ 5 true gameW
    rfl rfl (Or.inl ⟨rfl, by decide⟩)

/-- C7: an accepted move appends exactly one move row whose
`move_number` is `floor(priorMoveCountForToken / 2) + 1`; hence the
first and second accepted moves both carry number 1 and the third and
fourth both carry number 2. -/
theorem move_sequence_number (db : DB) (data : MakeMovePayload) (now : Nat)
    (g : GameSession)
    (hg : getGame db data.game_uuid = some g)
    (hacc : turnRejected g data.player_id = false) :
    (handle_make_move db data now true).1.moves =
      db.moves ++ [⟨data.game_uuid, moveCount db.moves data.game_uuid / 2 + 1,
                    data.player_id, data.move_data, now⟩]
  ∧ (moveCount db.moves data.game_uuid = 0 ∨
       moveCount db.moves data.game_uuid = 1 →
         moveCount db.moves data.game_uuid / 2 + 1 = 1)
  ∧ (moveCount db.moves data.game_uuid = 2 ∨
       moveCount db.moves data.game_uuid = 3 →
         moveCount db.moves data.game_uuid / 2 + 1 = 2) := by
  refine ⟨?_, ?_, ?_⟩
  · simp [handle_make_move, hg, hacc]
  · rintro (h | h) <;> simp [h]
  · rintro (h | h) <;> simp [h]

/-- Witness for `move_sequence_number`: white's first move in `gameW`
(no prior move rows) is stored with `move_number = 1`. -/
theorem move_sequence_number_witness :
    (handle_make_move dbW ⟨"g1", 1, "e2e4", toBlackState⟩ 7 true).1.moves =
      dbW.moves ++ [⟨"g1", moveCount dbW.moves "g1" / 2 + 1, 1, "e2e4", 7⟩]
  ∧ (moveCount dbW.moves "g1" = 0 ∨ moveCount dbW.moves "g1" = 1 →
       moveCount dbW.moves "g1" / 2 + 1 = 1)
  ∧ (moveCount dbW.moves "g1" = 2 ∨ moveCount dbW.moves "g1" = 3 →
       moveCount dbW.moves "g1" / 2 + 1 = 2) :=
  move_sequence_number dbW ⟨"g1", 1, "e2e4", toBlackState⟩ 7 gameW rfl rfl

/-- C9: `request_game_state` for an unknown token replies with the
not-found error to the requesting sid only, and for a known token
replies with the full current session row to the requesting sid only;
in both cases the store is returned unchanged and nothing is emitted to
any room. -/
theorem request_game_state_spec (db : DB) (game_uuid : String) (sid : String) :
    (getGame db game_uuid = none →
       handle_request_game_state db game_uuid sid =
         (db, [⟨"game_error", .errMsg "Game state not found.", .sid sid⟩]))
  ∧ (∀ g, getGame db game_uuid = some g →
       handle_request_game_state db game_uuid sid =
         (db, [⟨"game_state_update", .fullRow g, .sid sid⟩])) := by
  constructor
  · intro h
    simp [handle_request_game_state, h]
  · intro g h
    simp [handle_request_game_state, h]

/-- Witness for `request_game_state_spec`: an unknown token on the empty
store yields the error reply to the requester; the token `g1` on `dbW`
yields the full row reply to the requester. -/
theorem request_game_state_spec_witness :
    handle_request_game_state dbEmpty "nope" "sid9" =
      (dbEmpty, [⟨"game_error", .errMsg "Game state not found.", .sid "sid9"⟩])
  ∧ handle_request_game_state dbW "g1" "sid9" =
      (dbW, [⟨"game_state_update", .fullRow gameW, .sid "sid9"⟩]) :=
  ⟨(request_game_state_spec dbEmpty "nope" "sid9").1 rfl,
   (request_game_state_spec dbW "g1" "sid9").2 gameW rfl⟩

/-- C8: `accept_invite` and `decline_invite` both fail (not found) and
leave the store unchanged unless a pending invitation with the token
addressed to the acting identity exists — so a sender cannot resolve
their own invitation, and once resolved a second attempt sees not-found
because the status is no longer `pending`; on success accept flips the
found row's status to `accepted`, and decline flips it to `declined`
and leaves the sessions table untouched. -/
theorem invite_resolution_spec (db : DB) (game_uuid : String) (actor : Nat)
    (swap : Bool) (now : Nat) :
    (findPendingInvite db game_uuid actor = none →
        accept_invite db game_uuid actor swap now = (db, .notFound)
      ∧ decline_invite db game_uuid actor = (db, .notFound))
  ∧ (∀ invite, findPendingInvite db game_uuid actor = some invite →
        (accept_invite db game_uuid actor swap now).1.invitations =
          setInviteStatus db.invitations invite.id "accepted"
      ∧ (∀ inv ∈ (accept_invite db game_uuid actor swap now).1.invitations,
           inv.id = invite.id → inv.status = "accepted")
      ∧ (decline_invite db game_uuid actor).1.invitations =
          setInviteStatus db.invitations invite.id "declined"
      ∧ (∀ inv ∈ (decline_invite db game_uuid actor).1.invitations,
           inv.id = invite.id → inv.status = "declined")
      ∧ (decline_invite db game_uuid actor).1.games = db.games) := by
  constructor
  · intro h
    exact ⟨by simp [accept_invite, h], by simp [decline_invite, h]⟩
  · intro invite h
    have haccInvs : (accept_invite db game_uuid actor swap now).1.invitations =
        setInviteStatus db.invitations invite.id "accepted" := by
      by_cases hc : invite.game_name = "chess" <;>
        simp [accept_invite, h, hc]
    refine ⟨haccInvs, ?_, ?_, ?_, ?_⟩
    · rw [haccInvs]
      exact setInviteStatus_mem db.invitations invite.id "accepted"
    · simp [decline_invite, h]
    · simp only [decline_invite, h]
      exact setInviteStatus_mem db.invitations invite.id "declined"
    · simp [decline_invite, h]

/-- Witness for `invite_resolution_spec`: on `db0` (one pending chess
invitation, id 1, recipient 2) the sender 1 cannot resolve it, and the
recipient 2's decline flips it to `declined` and creates no session. -/
theorem invite_resolution_spec_witness :
    (accept_invite db0 "g1" 1 false 3 = (db0, .notFound)
      ∧ decline_invite db0 "g1" 1 = (db0, .notFound))
  ∧ ((decline_invite db0 "g1" 2).1.invitations =
        setInviteStatus db0.invitations 1 "declined"
      ∧ (decline_invite db0 "g1" 2).1.games = db0.games) :=
  ⟨(invite_resolution_spec db0 "g1" 1 false 3).1 rfl,
   ((invite_resolution_spec db0 "g1" 2 false 3).2 pendingChessInvite rfl).2.2.1,
   ((invite_resolution_spec db0 "g1" 2 false 3).2 pendingChessInvite rfl).2.2.2.2⟩

/-- C6: accepting a pending chess invitation creates exactly one new
session row with the canonical chess start — `INITIAL_BOARD` (the
standard starting position), whose-turn `"w"`, all four castling rights,
no en-passant target, no last move, not terminal, no winner — and
assigns white to the sender when the coin is `false` and to the
recipient when it is `true`; for distinct participants exactly one of
the two equiprobable coin outcomes yields each permutation, i.e. each
permutation has probability 1/2 under a uniform coin. -/
theorem accept_chess_initializes_session (db : DB) (game_uuid : String)
    (actor : Nat) (swap : Bool) (now : Nat) (invite : Invitation)
    (hfind : findPendingInvite db game_uuid actor = some invite)
    (hchess : invite.game_name = "chess")
    (hdistinct : invite.sender_id ≠ invite.recipient_id) :
    (accept_invite db game_uuid actor swap now).2 = .acceptedWithGame
      ⟨game_uuid, "chess",
       (if swap then invite.recipient_id else invite.sender_id),
       (if swap then invite.sender_id else invite.recipient_id),
       INITIAL_BOARD, "w", 0, 0, initial_castling_rights,
       none, none, false, none, now, now⟩
  ∧ (accept_invite db game_uuid actor swap now).1.games = db.games ++
      [⟨game_uuid, "chess",
        (if swap then invite.recipient_id else invite.sender_id),
        (if swap then invite.sender_id else invite.recipient_id),
        INITIAL_BOARD, "w", 0, 0, initial_castling_rights,
        none, none, false, none, now, now⟩]
  ∧ ([false, true].filter (fun b =>
       (if b then invite.recipient_id else invite.sender_id)
         = invite.sender_id)).length = 1
  ∧ ([false, true].filter (fun b =>
       (if b then invite.recipient_id else invite.sender_id)
         = invite.recipient_id)).length = 1
  ∧ [false, true].length = 2 := by
  have hrs : invite.recipient_id ≠ invite.sender_id := Ne.symm hdistinct
  refine ⟨?_, ?_, ?_, ?_, rfl⟩
  · simp [accept_invite, hfind, hchess]
  · simp [accept_invite, hfind, hchess]
  · simp [List.filter, hrs]
  · simp [List.filter, hdistinct]

/-- Witness for `accept_chess_initializes_session`: user 2 accepts
`pendingChessInvite` with the coin on `true`, so white is the
recipient 2 and black is the sender 1. -/
theorem accept_chess_initializes_session_witness :
    (accept_invite db0 "g1" 2 true 4).2 = .acceptedWithGame
      ⟨"g1", "chess", 2, 1, INITIAL_BOARD, "w", 0, 0,
       initial_castling_rights, none, none, false, none, 4, 4⟩
  ∧ (accept_invite db0 "g1" 2 true 4).1.games = db0.games ++
      [⟨"g1", "chess", 2, 1, INITIAL_BOARD, "w", 0, 0,
        initial_castling_rights, none, none, false, none, 4, 4⟩] := by
  have h := accept_chess_initializes_session db0 "g1" 2 true 4
    pendingChessInvite rfl rfl (by decide)
  exact ⟨h.1, h.2.1⟩

/-- Any session a successful `accept_invite` reports was created with
whose-turn marker `"w"`. -/
theorem accept_invite_turn_w (db : DB) (u : String) (a : Nat) (sw : Bool)
    (n : Nat) (g : GameSession)
    (h : (accept_invite db u a sw n).2 = .acceptedWithGame g) :
    g.current_turn = "w" := by
  unfold accept_invite at h
  cases hf : findPendingInvite db u a with
  | none =>
      rw [hf] at h
      simp at h
  | some invite =>
      rw [hf] at h
      by_cases hc : invite.game_name = "chess"
      · simp only [hc, beq_self_eq_true, if_true] at h
        simp only [AcceptResult.acceptedWithGame.injEq] at h
        rw [← h]
      · simp [hc] at h

/-! Fixtures for the turn-trust and terminal-flag counterexamples. -/

/-- The store after white's first accepted move on `afterAccept` whose
submitted resulting state keeps the marker at `"w"`. -/
def afterStayWhite : DB :=
  (handle_make_move afterAccept ⟨"g1", 1, "m1", stayWhiteState⟩ 1 true).1

/-- A client state that declares the game over with winner 2 and hands
the marker to `"b"`. -/
def gameOverState : ClientState :=
  ⟨INITIAL_BOARD, "b", 0, 0, initial_castling_rights, none, none, true, some 2⟩

/-- The store after white's first accepted move on `afterAccept`
submitted `gameOverState`: the stored session is now terminal. -/
def afterGameOver : DB :=
  (handle_make_move afterAccept ⟨"g1", 1, "m1", gameOverState⟩ 1 true).1

/-- A client state whose whose-turn marker is the out-of-range value
`"x"`. -/
def turnXState : ClientState :=
  ⟨INITIAL_BOARD, "x", 0, 0, initial_castling_rights, none, none, false, none⟩

/-- The store after white's first accepted move on `afterAccept`
submitted `turnXState`: the stored marker is now `"x"`. -/
def afterTurnX : DB :=
  (handle_make_move afterAccept ⟨"g1", 1, "m1", turnXState⟩ 1 true).1

/-- An already-terminal session `g9` (white 1, black 2, marker `"w"`,
`game_over` set, winner 2). -/
def terminalGame : GameSession :=
  ⟨"g9", "chess", 1, 2, INITIAL_BOARD, "w", 0, 0, initial_castling_rights,
   none, none, true, some 2, 0, 0⟩

/-- A store holding only `terminalGame`. -/
def dbTerminal : DB := ⟨[], [terminalGame], []⟩

/-- C1 counterexample: starting from the freshly accepted session of
`afterAccept`, white (user 1) submits a move whose resulting state sets
the terminal flag, so the stored session of `afterGameOver` has
`game_over = true` and one logged move; the subsequent `make_move` by
black (user 2) is NOT rejected with any game-over error: it emits the
success broadcast, appends a second move row and rewrites the session
row (`last_updated` becomes 2), refuting the claim that every move on a
terminal session fails and leaves the session row and move log
unchanged. -/
theorem game_over_not_enforced_counterexample :
    (getGame afterGameOver "g1").map (fun g => g.game_over) = some true
  ∧ afterGameOver.moves.length = 1
  ∧ (handle_make_move afterGameOver ⟨"g1", 2, "m2", toBlackState⟩ 2 true).2 =
      [⟨"game_state_update", .stateUpdate toBlackState, .room "g1"⟩]
  ∧ (handle_make_move afterGameOver ⟨"g1", 2, "m2", toBlackState⟩ 2 true).1.moves.length = 2
  ∧ (getGame (handle_make_move afterGameOver ⟨"g1", 2, "m2", toBlackState⟩ 2 true).1 "g1").map
      (fun g => g.last_updated) = some 2 :=
  ⟨rfl, rfl, rfl, rfl, rfl⟩

/-- C1 amended: `handle_make_move` performs no terminal-flag check at
all.  On a session whose `game_over` flag is set, a move from an
identity passing the turn-ownership test is accepted exactly as on a
live session: the success state is broadcast and a move row is
appended (an identity failing the turn test still gets the
not-your-turn error, as always). -/
theorem make_move_ignores_terminal_flag (db : DB) (data : MakeMovePayload)
    (now : Nat) (g : GameSession)
    (hg : getGame db data.game_uuid = some g)
    (_hover : g.game_over = true)
    (hacc : turnRejected g data.player_id = false) :
    (handle_make_move db data now true).2 =
      [⟨"game_state_update", .stateUpdate data.new_game_state,
        .room data.game_uuid⟩]
  ∧ (handle_make_move db data now true).1.moves =
      db.moves ++ [⟨data.game_uuid, moveCount db.moves data.game_uuid / 2 + 1,
                    data.player_id, data.move_data, now⟩] := by
  constructor <;> simp [handle_make_move, hg, hacc]

/-- Witness for `make_move_ignores_terminal_flag`: white moves on the
terminal session `terminalGame` and the move is accepted. -/
theorem make_move_ignores_terminal_flag_witness :
    (handle_make_move dbTerminal ⟨"g9", 1, "m", toBlackState⟩ 3 true).2 =
      [⟨"game_state_update", .stateUpdate toBlackState, .room "g9"⟩]
  ∧ (handle_make_move dbTerminal ⟨"g9", 1, "m", toBlackState⟩ 3 true).1.moves =
      dbTerminal.moves ++ [⟨"g9", moveCount dbTerminal.moves "g9" / 2 + 1,
                            1, "m", 3⟩] :=
  make_move_ignores_terminal_flag dbTerminal ⟨"g9", 1, "m", toBlackState⟩ 3
    terminalGame rfl rfl rfl

/-- C2 counterexample: on the fresh session of `afterAccept` (white is
user 1, marker `"w"`), white's move submitting a resulting state whose
marker is again `"w"` is accepted; the stored marker after this accepted
move is `"w"`, not the complement `"b"` of the mover's role, and the
same identity's immediately following move is accepted too — so the
turn does not strictly alternate. -/
theorem turn_alternation_counterexample :
    (getGame afterAccept "g1").map
        (fun g => (g.player_white_id, g.current_turn)) = some (1, "w")
  ∧ (handle_make_move afterAccept ⟨"g1", 1, "m1", stayWhiteState⟩ 1 true).2 =
      [⟨"game_state_update", .stateUpdate stayWhiteState, .room "g1"⟩]
  ∧ (getGame afterStayWhite "g1").map (fun g => g.current_turn) = some "w"
  ∧ (handle_make_move afterStayWhite ⟨"g1", 1, "m2", stayWhiteState⟩ 2 true).2 =
      [⟨"game_state_update", .stateUpdate stayWhiteState, .room "g1"⟩]
  ∧ (handle_make_move afterStayWhite ⟨"g1", 1, "m2", stayWhiteState⟩ 2 true).1.moves.length = 2 :=
  ⟨rfl, rfl, rfl, rfl, rfl⟩

/-- C2 amended: the engine trusts the client for the next marker — the
marker stored by an accepted move is exactly the submitted resulting
state's marker, not a server-computed complement — while an accepted
move's sender does match the pre-move marker (`"w"` only from the white
player, `"b"` only from the black player), and a session reported by a
successful accept starts with marker `"w"`; hence the turn strictly
alternates, and the first accepted move of a new chess session comes
from white, exactly when every accepted move's submitted state carries
the complement of its mover's role. -/
theorem make_move_turn_trust (db : DB) (data : MakeMovePayload) (now : Nat)
    (g : GameSession)
    (hg : getGame db data.game_uuid = some g)
    (hacc : turnRejected g data.player_id = false) :
    (∀ g2 ∈ (handle_make_move db data now true).1.games,
        g2.game_uuid = data.game_uuid →
          g2.current_turn = data.new_game_state.current_turn)
  ∧ (g.current_turn = "w" → data.player_id = g.player_white_id)
  ∧ (g.current_turn = "b" → data.player_id = g.player_black_id)
  ∧ (∀ (db2 : DB) (u : String) (a : Nat) (sw : Bool) (n : Nat)
        (gNew : GameSession),
        (accept_invite db2 u a sw n).2 = .acceptedWithGame gNew →
          gNew.current_turn = "w") := by
  refine ⟨?_, ?_, ?_, ?_⟩
  · simp only [handle_make_move, hg, hacc, Bool.false_eq_true, if_false,
      Bool.not_true]
    exact updateGame_turn db.games data.game_uuid data.new_game_state now
  · intro ht
    simp [turnRejected, ht] at hacc
    exact hacc
  · intro ht
    simp [turnRejected, ht] at hacc
    exact hacc
  · intro db2 u a sw n gNew h
    exact accept_invite_turn_w db2 u a sw n gNew h

/-- Witness for `make_move_turn_trust`: white's first move on `dbW`
submitting `toBlackState`; every stored `g1` row then carries the
submitted marker `"b"`, the mover is the white player, and the accepted
session of `accept_invite db0 "g1" 2 false 0` starts at `"w"`. -/
theorem make_move_turn_trust_witness :
    ((handle_make_move dbW ⟨"g1", 1, "e2e4", toBlackState⟩ 1 true).1.games.all
       (fun g2 => !(g2.game_uuid == "g1") || (g2.current_turn == "b"))) = true
  ∧ (1 : Nat) = gameW.player_white_id
  ∧ ((accept_invite db0 "g1" 2 false 0).2 = .acceptedWithGame
       ⟨"g1", "chess", 1, 2, INITIAL_BOARD, "w", 0, 0,
        initial_castling_rights, none, none, false, none, 0, 0⟩ →
     (⟨"g1", "chess", 1, 2, INITIAL_BOARD, "w", 0, 0,
       initial_castling_rights, none, none, false, none, 0, 0⟩ :
         GameSession).current_turn = "w") := by
  have h := make_move_turn_trust dbW ⟨"g1", 1, "e2e4", toBlackState⟩ 1 gameW
    rfl rfl
  refine ⟨?_, h.2.1 rfl, fun hs => h.2.2.2 db0 "g1" 2 false 0 _ hs⟩
  rw [List.all_eq_true]
  intro g2 hmem
  by_cases hu : g2.game_uuid = "g1"
  · have h2 := h.1 g2 hmem hu
    rw [h2]
    simp [toBlackState]
  · simp [hu]

/-- C10 counterexample: the turn check does not reject a non-participant
for every stored marker value.  Starting from `afterAccept` (white 1,
black 2), white submits a resulting state whose marker is `"x"`; that
value is stored, and then user 99 — neither participant — submits a
move, which is accepted: the success state is broadcast and a move row
by player 99 is appended, mutating the session's state and move log. -/
theorem non_participant_counterexample :
    (getGame afterTurnX "g1").map
        (fun g => (g.player_white_id, g.player_black_id, g.current_turn)) =
      some (1, 2, "x")
  ∧ (handle_make_move afterTurnX ⟨"g1", 99, "m2", toBlackState⟩ 2 true).2 =
      [⟨"game_state_update", .stateUpdate toBlackState, .room "g1"⟩]
  ∧ (handle_make_move afterTurnX ⟨"g1", 99, "m2", toBlackState⟩ 2 true).1.moves =
      afterTurnX.moves ++ [⟨"g1", 1, 99, "m2", 2⟩] :=
  ⟨rfl, rfl, rfl⟩

/-- C10 amended: for every session whose stored whose-turn marker is one
of the two role values `"w"` / `"b"`, a `make_move` from an identity
that is neither the white nor the black participant is always rejected
with the not-your-turn error and the store is returned unchanged,
whichever of the two values the marker holds; markers outside
`{"w", "b"}` (storable because the engine trusts the client's submitted
marker) escape the check. -/
theorem non_participant_rejected (db : DB) (data : MakeMovePayload)
    (now : Nat) (storage_ok : Bool) (g : GameSession)
    (hg : getGame db data.game_uuid = some g)
    (hw : data.player_id ≠ g.player_white_id)
    (hb : data.player_id ≠ g.player_black_id)
    (hm : g.current_turn = "w" ∨ g.current_turn = "b") :
    handle_make_move db data now storage_ok =
      (db, [⟨"game_error", .errMsg "It is not your turn.",
             .room data.game_uuid⟩]) := by
  have hrej : turnRejected g data.player_id = true := by
    rcases hm with ht | ht <;> simp [turnRejected, ht, hw, hb]
  simp [handle_make_move, hg, hrej]

/-- Witness for `non_participant_rejected`: user 99 (neither 1 nor 2)
tries to move in `gameW` and is rejected. -/
theorem non_participant_rejected_witness :
    handle_make_move dbW ⟨"g1", 99, "m", toBlackState⟩ 5 true =
      (dbW, [⟨"game_error", .errMsg "It is not your turn.", .room "g1"⟩]) :=
  non_participant_rejected dbW ⟨"g1", 99, "m", toBlackState⟩ 5 true gameW
    rfl (by decide) (by decide) (Or.inl rfl)

/-- Relay rooms for the failure-broadcast counterexample: two
connections, the proposer and another subscriber, both joined to room
`gX`. -/
def roomsBoth : Rooms := [("gX", "proposer"), ("gX", "other")]

/-- C4 counterexample: a failing `make_move` (unknown token `gX`) emits
its error with target `room gX`, and with another subscriber joined to
that room the error notification is delivered to that other subscriber
— refuting the claim that on failure nothing is sent to the other
session subscribers. -/
theorem error_broadcast_counterexample :
    handle_make_move dbEmpty ⟨"gX", 1, "m", toBlackState⟩ 0 true =
      (dbEmpty, [⟨"game_error", .errMsg "Game not found.", .room "gX"⟩])
  ∧ ((handle_make_move dbEmpty ⟨"gX", 1, "m", toBlackState⟩ 0 true).2.all
       (fun e => deliveredTo e roomsBoth "other")) = true :=
  ⟨rfl, rfl⟩

/-- C4 amended: every `emit` performed by `handle_make_move` — the
unknown-session error, the not-your-turn error, the storage error and
the success broadcast alike — is targeted at the session's room
`game_uuid`, and is therefore delivered to every subscriber of that
room, not only to the acting client.  Only `handle_request_game_state`
replies solely to the requesting sid. -/
theorem make_move_emits_to_room (db : DB) (data : MakeMovePayload)
    (now : Nat) (storage_ok : Bool) :
    ((handle_make_move db data now storage_ok).2.all
      (fun e => e.target == Target.room data.game_uuid)) = true := by
  unfold handle_make_move
  cases getGame db data.game_uuid with
  | none => simp
  | some g =>
      by_cases hrej : turnRejected g data.player_id <;>
        cases storage_ok <;> simp [hrej]

/-- An already-resolved invitation of a different game kind from user 1
to user 2: status `declined`, kind `checkers`. -/
def declinedCheckersInvite : Invitation :=
  ⟨1, 1, 2, "checkers", "declined", 0, "u0"⟩

/-- A store holding only `declinedCheckersInvite`. -/
def dbDeclined : DB := ⟨[declinedCheckersInvite], [], []⟩

/-- C5 (code bug, operator precedence): in the duplicate query's WHERE
clause, SQL `AND` binds tighter than `OR`, so the `game_name` and
`status = 'pending'` filters attach only to the reversed-direction
disjunct.  With only a `declined` `checkers` invitation from 1 to 2 on
file — no pending invitation for the pair and kind `chess`, as
`specPendingDuplicate` confirms — user 1's new `chess` invitation to 2
is nevertheless rejected as a duplicate, contradicting the handler's
own "pending ... invitation already exists" message. -/
theorem duplicate_check_precedence_bug :
    invite_game [1, 2] dbDeclined 1 2 "chess" "u1" 5 =
      (dbDeclined, .duplicatePendingError)
  ∧ specPendingDuplicate dbDeclined 1 2 "chess" = false :=
  ⟨rfl, rfl⟩

end SociaFam
